import Mathlib

/-!
Shallow embedding of the loan amortization and payment-allocation engine of
src/Controllers/loan.controller.js.

Modelling conventions:
* JavaScript floating-point arithmetic is idealized as exact real arithmetic
  (ℝ); Number.prototype.toFixed(2) followed by parseFloat is modelled by
  round2 (round half-up to 2 decimal places).
* JavaScript Date values are modelled at calendar-day granularity as
  (year, month, day) triples in the proleptic Gregorian calendar; the handlers
  pass dates parsed from date strings (midnight UTC), so differences of
  timestamps are whole numbers of days, captured by toDays.
* Mongoose persistence is out of scope: every handler is a function from the
  loan record it loaded (plus its request inputs) to either an error or the
  record it would save.  A handler that returns an error returns before any
  mutation of the record, so an error result models "no stored field changes".
-/

namespace Bachat

/-- Payment / compounding cadence, the three strings the validator admits. -/
inductive Freq where
  | monthly
  | quarterly
  | halfYearly
deriving DecidableEq

/-- getFrequencyDetails: periods per year for a cadence (12 / 4 / 2). -/
def periodsPerYear : Freq → ℕ
  | .monthly => 12
  | .quarterly => 4
  | .halfYearly => 2

/-- The month count of one cadence period (the literals 1 / 3 / 6 used by the
due-date if-chains and the divisors of calculateNumberOfPayments). -/
def monthsOf : Freq → ℕ
  | .monthly => 1
  | .quarterly => 3
  | .halfYearly => 6

/-- A calendar date: proleptic Gregorian, month 1..12, day 1..daysInMonth. -/
structure Date where
  year : ℕ
  month : ℕ
  day : ℕ
deriving DecidableEq

/-- Gregorian leap-year rule (what the JS Date object implements). -/
def isLeap (y : ℕ) : Bool :=
  y % 4 == 0 && (y % 100 != 0 || y % 400 == 0)

/-- Days in a month of a given year. -/
def daysInMonth (y m : ℕ) : ℕ :=
  if m = 2 then (if isLeap y then 29 else 28)
  else if m = 4 ∨ m = 6 ∨ m = 9 ∨ m = 11 then 30
  else 31

/-- Days in the months of year y strictly before month m (1-based). -/
def daysBeforeMonth (y m : ℕ) : ℕ :=
  let l : ℕ := if isLeap y then 1 else 0
  match m with
  | 1 => 0
  | 2 => 31
  | 3 => 59 + l
  | 4 => 90 + l
  | 5 => 120 + l
  | 6 => 151 + l
  | 7 => 181 + l
  | 8 => 212 + l
  | 9 => 243 + l
  | 10 => 273 + l
  | 11 => 304 + l
  | _ => 334 + l

/-- Day number of a date (days since 0000-01-01); getTime() of two midnight
dates differs by exactly (toDays a - toDays b) * 86400000 ms. -/
def toDays (d : Date) : ℕ :=
  365 * d.year + ((d.year + 3) / 4 - (d.year + 99) / 100 + (d.year + 399) / 400)
    + daysBeforeMonth d.year d.month + (d.day - 1)

/-- advanceDate: add calendar months, clamping the day to the end of the
target month exactly as newDate.setMonth followed by the
getDate-mismatch / setDate(0) correction does. -/
def advanceDate (d : Date) (months : ℕ) : Date :=
  let m0 := d.month - 1 + months
  let y := d.year + m0 / 12
  let m := m0 % 12 + 1
  { year := y, month := m, day := min d.day (daysInMonth y m) }

/-- The month-index difference the source computes:
(end.getFullYear() - start.getFullYear()) * 12 + (end.getMonth() - start.getMonth()). -/
def monthsBetween (start stop : Date) : ℤ :=
  ((stop.year : ℤ) - start.year) * 12 + ((stop.month : ℤ) - start.month)

/-- calculateNumberOfPayments: cadence-dependent floor of the month-index
difference, floored at 1 (Math.floor on a float quotient is Int.fdiv). -/
def calculateNumberOfPayments (startDate endDate : Date) (paymentFrequency : Freq) : ℤ :=
  let months := monthsBetween startDate endDate
  match paymentFrequency with
  | .monthly => max 1 months
  | .quarterly => max 1 (Int.fdiv months 3)
  | .halfYearly => max 1 (Int.fdiv months 6)

noncomputable section

/-- parseFloat(x.toFixed(2)) idealized: round half-up to 2 decimal places. -/
def round2 (x : ℝ) : ℝ := (round (100 * x) : ℤ) / 100

/-- A real that is exactly representable with 2 decimal places (the stored
currency figures, per the spec all rounded at the point of storage). -/
def IsTwoDec (x : ℝ) : Prop := ∃ k : ℤ, x = (k : ℝ) / 100

/-- calculatePayment: periodic payment by the annuity formula after
converting the nominal annual rate through the effective annual rate to a
payment-period rate.  Exponentiation by 1/paymentsPerYear is real (rpow). -/
def calculatePayment (principal annualRate : ℝ)
    (compoundsPerYear paymentsPerYear numberOfPayments : ℕ) : ℝ :=
  if annualRate = 0 then principal / numberOfPayments
  else
    let ratePerCompoundPeriod := annualRate / 100 / compoundsPerYear
    let effectiveAnnualRate := (1 + ratePerCompoundPeriod) ^ compoundsPerYear - 1
    let ratePerPaymentPeriod :=
      (1 + effectiveAnnualRate) ^ ((1 : ℝ) / paymentsPerYear) - 1
    round2 (principal * ratePerPaymentPeriod
      * (1 + ratePerPaymentPeriod) ^ numberOfPayments
      / ((1 + ratePerPaymentPeriod) ^ numberOfPayments - 1))

/-- calculateAccruedInterest: compound interest over the fractional number of
compounding periods elapsed between two dates (actual/365 day count). -/
def calculateAccruedInterest (principal annualRate : ℝ)
    (fromDate toDate : Date) (compoundingFrequency : Freq) : ℝ :=
  if annualRate = 0 then 0
  else if toDays toDate ≤ toDays fromDate then 0
  else
    let p : ℝ := periodsPerYear compoundingFrequency
    let ratePerPeriod := annualRate / 100 / p
    let daysDiff : ℝ := (toDays toDate : ℝ) - (toDays fromDate : ℝ)
    let periodsElapsed := daysDiff / (365 / p)
    round2 (principal * ((1 + ratePerPeriod) ^ periodsElapsed - 1))

/-- Loan lifecycle status. -/
inductive LoanStatus where
  | active
  | closed
deriving DecidableEq

/-- The stored loan record (the fields the engine reads or writes). -/
structure Loan where
  amount : ℝ
  startDate : Date
  endDate : Date
  interestRate : ℝ
  paymentAmount : ℝ
  paymentFrequency : Freq
  compoundingFrequency : Freq
  nextDueDate : Option Date
  lastPaymentDate : Option Date
  amountPaid : ℝ
  remainingBalance : ℝ
  numberOfPayments : ℤ
  status : LoanStatus

/-- The request body of createLoan / reviseLoan (cadences already parsed;
fields the engine ignores, like title, are omitted). -/
structure LoanTerms where
  amount : ℝ
  startDate : Date
  endDate : Date
  interestRate : ℝ
  paymentFrequency : Freq
  compoundingFrequency : Freq
  status : LoanStatus

/-- The error responses of the handlers. -/
inductive LoanError where
  | invalidTerms
  | invalidPayment
  | loanClosed
  | paymentTooLarge (suggestedPayment : ℝ)

/-- The due-date if-chain: advance a date by one payment-cadence period. -/
def nextDueFrom (paymentFrequency : Freq) (d : Date) : Date :=
  match paymentFrequency with
  | .monthly => advanceDate d 1
  | .quarterly => advanceDate d 3
  | .halfYearly => advanceDate d 6

/-- Interest accrued on a loan's balance from its last payment date (or its
start date if none) to the given date: the accrual call every handler makes. -/
def accruedFor (loan : Loan) (d : Date) : ℝ :=
  calculateAccruedInterest loan.remainingBalance loan.interestRate
    (loan.lastPaymentDate.getD loan.startDate) d loan.compoundingFrequency

/-- The loan record the persistence layer holds after a handler ran: the
saved record on success, the untouched previous record on an error (every
handler returns its error before mutating the loan). -/
def stateAfter (result : Except LoanError Loan) (previous : Loan) : Loan :=
  match result with
  | .ok l => l
  | .error _ => previous

/-- router.post("/"): validation (amount ≥ 0, rate in 0..100 via
express-validator; then end ≤ start check), payment derivation, and the
initial record. -/
def createLoan (t : LoanTerms) : Except LoanError Loan :=
  if t.amount < 0 then .error .invalidTerms
  else if t.interestRate < 0 ∨ 100 < t.interestRate then .error .invalidTerms
  else if toDays t.endDate ≤ toDays t.startDate then .error .invalidTerms
  else
    let numberOfPayments := calculateNumberOfPayments t.startDate t.endDate t.paymentFrequency
    let paymentAmount := calculatePayment t.amount t.interestRate
      (periodsPerYear t.compoundingFrequency) (periodsPerYear t.paymentFrequency)
      numberOfPayments.toNat
    .ok {
      amount := round2 t.amount
      startDate := t.startDate
      endDate := t.endDate
      interestRate := t.interestRate
      paymentAmount := round2 paymentAmount
      paymentFrequency := t.paymentFrequency
      compoundingFrequency := t.compoundingFrequency
      nextDueDate := some (nextDueFrom t.paymentFrequency t.startDate)
      lastPaymentDate := some t.startDate
      amountPaid := 0
      remainingBalance := round2 t.amount
      numberOfPayments := numberOfPayments
      status := t.status }

/-- router.post("/:id/payment"): validation (paymentAmount ≥ 0.01), closed
check, accrual, 110% overpayment guard, interest-first allocation, ledger
update, due-date advance, and the ≤ 0.01 closure rule.  The source's
actualPaymentAmount fallback (paymentAmount or else the stored
loan.paymentAmount) never takes the fallback, because the validator requires
a paymentAmount of at least 0.01, which is truthy; so the model takes the
payment amount directly. -/
def applyPayment (loan : Loan) (paymentAmount : ℝ) (paymentDate : Date) :
    Except LoanError Loan :=
  if paymentAmount < 0.01 then .error .invalidPayment
  else if loan.status = .closed then .error .loanClosed
  else
    let lastPaymentDate := loan.lastPaymentDate.getD loan.startDate
    let accruedInterest := calculateAccruedInterest loan.remainingBalance
      loan.interestRate lastPaymentDate paymentDate loan.compoundingFrequency
    let currentBalance := round2 (loan.remainingBalance + accruedInterest)
    if currentBalance * 1.1 < paymentAmount then
      .error (.paymentTooLarge (round2 currentBalance))
    else
      let interestPaid := min accruedInterest paymentAmount
      let principalPaid := round2 (paymentAmount - interestPaid)
      let newAmountPaid := round2 (loan.amountPaid + paymentAmount)
      let newRemainingBalance := max 0 (round2 (loan.remainingBalance - principalPaid))
      let newNextDueDate := nextDueFrom loan.paymentFrequency paymentDate
      if newRemainingBalance ≤ 0.01 then
        .ok { loan with
          amountPaid := newAmountPaid
          remainingBalance := 0
          lastPaymentDate := some paymentDate
          nextDueDate := some newNextDueDate
          status := .closed }
      else
        .ok { loan with
          amountPaid := newAmountPaid
          remainingBalance := newRemainingBalance
          lastPaymentDate := some paymentDate
          nextDueDate := some newNextDueDate }

/-- router.put("/:id"): validation, re-derivation of the schedule, and the
proportional carry-over of repayment progress when the principal changes. -/
def reviseLoan (loan : Loan) (t : LoanTerms) (now : Date) : Except LoanError Loan :=
  if t.amount < 0 then .error .invalidTerms
  else if t.interestRate < 0 ∨ 100 < t.interestRate then .error .invalidTerms
  else if toDays t.endDate ≤ toDays t.startDate then .error .invalidTerms
  else
    let numberOfPayments := calculateNumberOfPayments t.startDate t.endDate t.paymentFrequency
    let paymentAmount := calculatePayment t.amount t.interestRate
      (periodsPerYear t.compoundingFrequency) (periodsPerYear t.paymentFrequency)
      numberOfPayments.toNat
    let lastPaymentDate := loan.lastPaymentDate.getD loan.startDate
    let accruedInterest := calculateAccruedInterest loan.remainingBalance
      loan.interestRate lastPaymentDate now loan.compoundingFrequency
    let newRemainingBalance :=
      if loan.amount ≠ t.amount ∧ 0 < loan.amount then
        let principalPaid := loan.amount - (loan.remainingBalance - accruedInterest)
        let percentagePaid := principalPaid / loan.amount
        round2 (t.amount * (1 - percentagePaid))
      else round2 t.amount
    .ok { loan with
      amount := round2 t.amount
      startDate := t.startDate
      endDate := t.endDate
      interestRate := t.interestRate
      paymentAmount := round2 paymentAmount
      paymentFrequency := t.paymentFrequency
      compoundingFrequency := t.compoundingFrequency
      nextDueDate := some (nextDueFrom t.paymentFrequency now)
      numberOfPayments := numberOfPayments
      status := t.status
      remainingBalance := newRemainingBalance
      amountPaid := round2 (t.amount - newRemainingBalance)
      lastPaymentDate := some now }

/-- router.post("/:id/payoff"): closed check, accrual to now, and the final
settlement that zeroes the balance, closes the loan and clears the due date. -/
def payoff (loan : Loan) (now : Date) : Except LoanError Loan :=
  if loan.status = .closed then .error .loanClosed
  else
    let lastPaymentDate := loan.lastPaymentDate.getD loan.startDate
    let accruedInterest := calculateAccruedInterest loan.remainingBalance
      loan.interestRate lastPaymentDate now loan.compoundingFrequency
    let finalPaymentAmount := round2 (loan.remainingBalance + accruedInterest)
    .ok { loan with
      amountPaid := round2 (loan.amountPaid + finalPaymentAmount)
      remainingBalance := 0
      status := .closed
      nextDueDate := none
      lastPaymentDate := some now }

/-- Refinement comparison, written from the spec's words (§4.2 steps 2-5):
the annuity amortization formula over the payment-period rate rp derived from
the effective annual rate ea. -/
def specAnnuityPayment (P rate : ℝ) (compoundsPerYear paymentsPerYear n : ℕ) : ℝ :=
  let rc := rate / 100 / (compoundsPerYear : ℝ)
  let ea := (1 + rc) ^ compoundsPerYear - 1
  let rp := (1 + ea) ^ ((1 : ℝ) / (paymentsPerYear : ℝ)) - 1
  P * rp * (1 + rp) ^ n / ((1 + rp) ^ n - 1)

/-- Refinement comparison, written from the spec's words (§4.3): compound
interest over the elapsed fractional periods, before rounding. -/
def specAccruedInterest (P rate : ℝ) (fromDate toDate : Date) (f : Freq) : ℝ :=
  let r := rate / 100 / (periodsPerYear f : ℝ)
  let elapsedPeriods :=
    ((toDays toDate : ℝ) - (toDays fromDate : ℝ)) / (365 / (periodsPerYear f : ℝ))
  P * ((1 + r) ^ elapsedPeriods - 1)

end

/-- Refinement comparison, written from the spec's words (§4.2 last line):
whole months between the dates, floor-divided by the cadence's month count,
with a floor of 1.  wholeMonths is formalized as the calendar month-index
difference monthsBetween, which is what the source computes (day-of-month is
ignored). -/
def countPaymentsSpec (startDate endDate : Date) (f : Freq) : ℤ :=
  max 1 (Int.fdiv (monthsBetween startDate endDate) (monthsOf f))

/-! ## Helper lemmas about rounding and accrual -/

theorem twoDec_round2 (x : ℝ) : IsTwoDec (round2 x) :=
  ⟨round (100 * x), rfl⟩

theorem round2_eq_self {x : ℝ} (h : IsTwoDec x) : round2 x = x := by
  obtain ⟨k, rfl⟩ := h
  unfold round2
  rw [show (100 : ℝ) * ((k : ℝ) / 100) = (k : ℝ) by ring, round_intCast]

theorem IsTwoDec.zero : IsTwoDec (0 : ℝ) :=
  ⟨0, by norm_num⟩

theorem IsTwoDec.add {x y : ℝ} (hx : IsTwoDec x) (hy : IsTwoDec y) :
    IsTwoDec (x + y) := by
  obtain ⟨j, rfl⟩ := hx
  obtain ⟨k, rfl⟩ := hy
  exact ⟨j + k, by push_cast; ring⟩

theorem IsTwoDec.sub {x y : ℝ} (hx : IsTwoDec x) (hy : IsTwoDec y) :
    IsTwoDec (x - y) := by
  obtain ⟨j, rfl⟩ := hx
  obtain ⟨k, rfl⟩ := hy
  exact ⟨j - k, by push_cast; ring⟩

theorem IsTwoDec.min {x y : ℝ} (hx : IsTwoDec x) (hy : IsTwoDec y) :
    IsTwoDec (min x y) := by
  obtain ⟨j, rfl⟩ := hx
  obtain ⟨k, rfl⟩ := hy
  rcases le_total j k with h | h
  · have hjk : (j : ℝ) ≤ (k : ℝ) := by exact_mod_cast h
    rw [min_eq_left (by linarith)]
    exact ⟨j, rfl⟩
  · have hjk : (k : ℝ) ≤ (j : ℝ) := by exact_mod_cast h
    rw [min_eq_right (by linarith)]
    exact ⟨k, rfl⟩

theorem round2_mono {x y : ℝ} (h : x ≤ y) : round2 x ≤ round2 y := by
  unfold round2
  have hr : round (100 * x) ≤ round (100 * y) := by
    rw [round_eq, round_eq]
    exact Int.floor_mono (by linarith)
  have hc : ((round (100 * x) : ℤ) : ℝ) ≤ ((round (100 * y) : ℤ) : ℝ) :=
    Int.cast_le.mpr hr
  linarith

theorem round2_zero : round2 (0 : ℝ) = 0 := by
  unfold round2
  norm_num

theorem round2_nonneg {x : ℝ} (h : 0 ≤ x) : 0 ≤ round2 x := by
  have h2 := round2_mono h
  rwa [round2_zero] at h2

theorem periodsPerYear_pos (f : Freq) : 0 < periodsPerYear f := by
  cases f <;> simp [periodsPerYear]

theorem accrued_rate_zero (P : ℝ) (d e : Date) (f : Freq) :
    calculateAccruedInterest P 0 d e f = 0 := by
  unfold calculateAccruedInterest
  simp

theorem accrued_twoDec (P r : ℝ) (d e : Date) (f : Freq) :
    IsTwoDec (calculateAccruedInterest P r d e f) := by
  unfold calculateAccruedInterest
  split
  · exact IsTwoDec.zero
  split
  · exact IsTwoDec.zero
  · exact twoDec_round2 _

theorem accrued_nonneg {P r : ℝ} (hP : 0 ≤ P) (hr : 0 ≤ r) (d e : Date) (f : Freq) :
    0 ≤ calculateAccruedInterest P r d e f := by
  unfold calculateAccruedInterest
  split
  · exact le_refl 0
  split
  · exact le_refl 0
  next hle =>
    dsimp only
    apply round2_nonneg
    apply mul_nonneg hP
    have hp : (0 : ℝ) < (periodsPerYear f : ℝ) := by
      exact_mod_cast periodsPerYear_pos f
    have h1 : (1 : ℝ) ≤ 1 + r / 100 / (periodsPerYear f : ℝ) := by
      have : 0 ≤ r / 100 / (periodsPerYear f : ℝ) := by positivity
      linarith
    have ht : 0 ≤ ((toDays e : ℝ) - (toDays d : ℝ)) / (365 / (periodsPerYear f : ℝ)) := by
      apply div_nonneg
      · have : (toDays d : ℝ) ≤ (toDays e : ℝ) := by
          exact_mod_cast Nat.le_of_lt (Nat.lt_of_not_le hle)
        linarith
      · positivity
    have hpow := Real.one_le_rpow h1 ht
    linarith

theorem accruedFor_rate_zero (loan : Loan) (d : Date) (h : loan.interestRate = 0) :
    accruedFor loan d = 0 := by
  unfold accruedFor
  rw [h]
  exact accrued_rate_zero _ _ _ _

theorem le_round2_add {a b : ℝ} (ha : IsTwoDec a) (hb : 0 ≤ b) :
    a ≤ round2 (a + b) := by
  have h1 : round2 a ≤ round2 (a + b) := round2_mono (by linarith)
  rwa [round2_eq_self ha] at h1

/-! ## Characterizations of the handlers on their accepting paths -/

theorem createLoan_ok (t : LoanTerms)
    (h0 : ¬ t.amount < 0)
    (hr : ¬ (t.interestRate < 0 ∨ 100 < t.interestRate))
    (hd : ¬ toDays t.endDate ≤ toDays t.startDate) :
    createLoan t = .ok {
      amount := round2 t.amount
      startDate := t.startDate
      endDate := t.endDate
      interestRate := t.interestRate
      paymentAmount := round2 (calculatePayment t.amount t.interestRate
        (periodsPerYear t.compoundingFrequency) (periodsPerYear t.paymentFrequency)
        (calculateNumberOfPayments t.startDate t.endDate t.paymentFrequency).toNat)
      paymentFrequency := t.paymentFrequency
      compoundingFrequency := t.compoundingFrequency
      nextDueDate := some (nextDueFrom t.paymentFrequency t.startDate)
      lastPaymentDate := some t.startDate
      amountPaid := 0
      remainingBalance := round2 t.amount
      numberOfPayments := calculateNumberOfPayments t.startDate t.endDate t.paymentFrequency
      status := t.status } := by
  unfold createLoan
  rw [if_neg h0, if_neg hr, if_neg hd]

theorem applyPayment_accept_close (loan : Loan) (pay : ℝ) (d : Date)
    (hval : ¬ pay < 0.01) (hopen : loan.status = .active)
    (hok : ¬ round2 (loan.remainingBalance + accruedFor loan d) * 1.1 < pay)
    (hclose : max 0 (round2 (loan.remainingBalance
      - round2 (pay - min (accruedFor loan d) pay))) ≤ 0.01) :
    applyPayment loan pay d = .ok { loan with
      amountPaid := round2 (loan.amountPaid + pay)
      remainingBalance := 0
      lastPaymentDate := some d
      nextDueDate := some (nextDueFrom loan.paymentFrequency d)
      status := .closed } := by
  unfold applyPayment
  rw [if_neg hval, if_neg (by simp [hopen])]
  dsimp only
  have hA : calculateAccruedInterest loan.remainingBalance loan.interestRate
      (loan.lastPaymentDate.getD loan.startDate) d loan.compoundingFrequency
      = accruedFor loan d := rfl
  rw [hA, if_neg hok, if_pos hclose]

theorem applyPayment_accept_open (loan : Loan) (pay : ℝ) (d : Date)
    (hval : ¬ pay < 0.01) (hopen : loan.status = .active)
    (hok : ¬ round2 (loan.remainingBalance + accruedFor loan d) * 1.1 < pay)
    (hstay : ¬ max 0 (round2 (loan.remainingBalance
      - round2 (pay - min (accruedFor loan d) pay))) ≤ 0.01) :
    applyPayment loan pay d = .ok { loan with
      amountPaid := round2 (loan.amountPaid + pay)
      remainingBalance := max 0 (round2 (loan.remainingBalance
        - round2 (pay - min (accruedFor loan d) pay)))
      lastPaymentDate := some d
      nextDueDate := some (nextDueFrom loan.paymentFrequency d) } := by
  unfold applyPayment
  rw [if_neg hval, if_neg (by simp [hopen])]
  dsimp only
  have hA : calculateAccruedInterest loan.remainingBalance loan.interestRate
      (loan.lastPaymentDate.getD loan.startDate) d loan.compoundingFrequency
      = accruedFor loan d := rfl
  rw [hA, if_neg hok, if_neg hstay]

theorem applyPayment_reject_large (loan : Loan) (pay : ℝ) (d : Date)
    (hval : ¬ pay < 0.01) (hopen : loan.status = .active)
    (hbig : round2 (loan.remainingBalance + accruedFor loan d) * 1.1 < pay) :
    applyPayment loan pay d
      = .error (.paymentTooLarge (round2 (round2 (loan.remainingBalance
          + accruedFor loan d)))) := by
  unfold applyPayment
  rw [if_neg hval, if_neg (by simp [hopen])]
  dsimp only
  have hA : calculateAccruedInterest loan.remainingBalance loan.interestRate
      (loan.lastPaymentDate.getD loan.startDate) d loan.compoundingFrequency
      = accruedFor loan d := rfl
  rw [hA, if_pos hbig]

theorem payoff_active (loan : Loan) (now : Date) (hopen : loan.status = .active) :
    payoff loan now = .ok { loan with
      amountPaid := round2 (loan.amountPaid
        + round2 (loan.remainingBalance + accruedFor loan now))
      remainingBalance := 0
      status := .closed
      nextDueDate := none
      lastPaymentDate := some now } := by
  unfold payoff
  rw [if_neg (by simp [hopen])]
  dsimp only
  have hA : calculateAccruedInterest loan.remainingBalance loan.interestRate
      (loan.lastPaymentDate.getD loan.startDate) now loan.compoundingFrequency
      = accruedFor loan now := rfl
  rw [hA]

theorem reviseLoan_ok (loan : Loan) (t : LoanTerms) (now : Date)
    (h0 : ¬ t.amount < 0)
    (hr : ¬ (t.interestRate < 0 ∨ 100 < t.interestRate))
    (hd : ¬ toDays t.endDate ≤ toDays t.startDate) :
    reviseLoan loan t now = .ok { loan with
      amount := round2 t.amount
      startDate := t.startDate
      endDate := t.endDate
      interestRate := t.interestRate
      paymentAmount := round2 (calculatePayment t.amount t.interestRate
        (periodsPerYear t.compoundingFrequency) (periodsPerYear t.paymentFrequency)
        (calculateNumberOfPayments t.startDate t.endDate t.paymentFrequency).toNat)
      paymentFrequency := t.paymentFrequency
      compoundingFrequency := t.compoundingFrequency
      nextDueDate := some (nextDueFrom t.paymentFrequency now)
      numberOfPayments := calculateNumberOfPayments t.startDate t.endDate t.paymentFrequency
      status := t.status
      remainingBalance :=
        if loan.amount ≠ t.amount ∧ 0 < loan.amount then
          round2 (t.amount * (1 - (loan.amount
            - (loan.remainingBalance - accruedFor loan now)) / loan.amount))
        else round2 t.amount
      amountPaid := round2 (t.amount
        - (if loan.amount ≠ t.amount ∧ 0 < loan.amount then
            round2 (t.amount * (1 - (loan.amount
              - (loan.remainingBalance - accruedFor loan now)) / loan.amount))
          else round2 t.amount))
      lastPaymentDate := some now } := by
  unfold reviseLoan
  rw [if_neg h0, if_neg hr, if_neg hd]
  dsimp only
  have hA : calculateAccruedInterest loan.remainingBalance loan.interestRate
      (loan.lastPaymentDate.getD loan.startDate) now loan.compoundingFrequency
      = accruedFor loan now := rfl
  rw [hA]

/-! ## Claim theorems -/

/-- C9: for every startDate, endDate and payment cadence,
calculateNumberOfPayments equals max(1, wholeMonths fdiv m) where wholeMonths
is the calendar month-index difference between the dates (the quantity the
source computes, ignoring day-of-month) and m is the cadence's month count
(1 / 3 / 6). -/
theorem calculateNumberOfPayments_eq_spec (s e : Date) (f : Freq) :
    calculateNumberOfPayments s e f = countPaymentsSpec s e f := by
  cases f <;>
    simp [calculateNumberOfPayments, countPaymentsSpec, monthsOf, Int.fdiv_one]

/-- C8: calculateAccruedInterest returns 0 when the rate is 0 or when
toDate ≤ fromDate (in particular for equal dates and for rate 0 on any
dates), and otherwise returns the spec's compound-interest formula
P * ((1+r)^elapsedPeriods - 1) rounded to 2 decimals, with
r = rate/100/periodsPerYear and elapsedPeriods = days / (365/periodsPerYear). -/
theorem calculateAccruedInterest_spec (P rate : ℝ) (d e : Date) (f : Freq) :
    (rate = 0 → calculateAccruedInterest P rate d e f = 0) ∧
    (toDays e ≤ toDays d → calculateAccruedInterest P rate d e f = 0) ∧
    calculateAccruedInterest P rate d d f = 0 ∧
    calculateAccruedInterest P 0 d e f = 0 ∧
    (rate ≠ 0 → toDays d < toDays e →
      calculateAccruedInterest P rate d e f = round2 (specAccruedInterest P rate d e f)) := by
  refine ⟨?_, ?_, ?_, ?_, ?_⟩
  · intro h
    subst h
    exact accrued_rate_zero P d e f
  · intro h
    unfold calculateAccruedInterest
    rcases eq_or_ne rate 0 with h0 | h0
    · rw [if_pos h0]
    · rw [if_neg h0, if_pos h]
  · unfold calculateAccruedInterest
    rcases eq_or_ne rate 0 with h0 | h0
    · rw [if_pos h0]
    · rw [if_neg h0, if_pos (le_refl _)]
  · exact accrued_rate_zero P d e f
  · intro h1 h2
    unfold calculateAccruedInterest specAccruedInterest
    rw [if_neg h1, if_neg (not_le.mpr h2)]

/-- C2: calculatePayment returns principal/numberOfPayments exactly when the
rate is 0; for a positive rate it returns the annuity formula over the
payment-period rate rp (derived through the effective annual rate) rounded to
2 decimals; and on principal 12000 at 12% with monthly compounding, monthly
payments and 12 payments it returns exactly 1066.19. -/
theorem calculatePayment_spec (P rate : ℝ) (c p n : ℕ) (hn : 1 ≤ n) (hrate : 0 < rate) :
    calculatePayment P 0 c p n = P / n ∧
    calculatePayment P rate c p n = round2 (specAnnuityPayment P rate c p n) ∧
    calculatePayment 12000 12 12 12 12 = 1066.19 := by
  refine ⟨?_, ?_, ?_⟩
  · unfold calculatePayment
    rw [if_pos rfl]
  · unfold calculatePayment specAnnuityPayment
    rw [if_neg hrate.ne']
  · have key : calculatePayment 12000 12 12 12 12
        = round2 (12000 * ((1.01 : ℝ) - 1) * (1 + ((1.01 : ℝ) - 1)) ^ (12 : ℕ)
          / ((1 + ((1.01 : ℝ) - 1)) ^ (12 : ℕ) - 1)) := by
      unfold calculatePayment
      rw [if_neg (by norm_num : ¬(12 : ℝ) = 0)]
      dsimp only
      have h1 : (1 : ℝ) + ((1 + (12 : ℝ) / 100 / ((12 : ℕ) : ℝ)) ^ (12 : ℕ) - 1)
          = (1.01 : ℝ) ^ (12 : ℕ) := by
        norm_num
      rw [h1]
      have h2 : ((1.01 : ℝ) ^ (12 : ℕ)) ^ ((1 : ℝ) / ((12 : ℕ) : ℝ)) = 1.01 := by
        rw [← Real.rpow_natCast (1.01 : ℝ) 12,
          ← Real.rpow_mul (by norm_num : (0 : ℝ) ≤ 1.01)]
        rw [show ((12 : ℕ) : ℝ) * ((1 : ℝ) / ((12 : ℕ) : ℝ)) = 1 by norm_num,
          Real.rpow_one]
      rw [h2]
    rw [key]
    have hE : (12000 : ℝ) * ((1.01 : ℝ) - 1) * (1 + ((1.01 : ℝ) - 1)) ^ (12 : ℕ)
        / ((1 + ((1.01 : ℝ) - 1)) ^ (12 : ℕ) - 1)
        = 135219003615836366479344120 / 126825030131969720661201 := by
      norm_num
    unfold round2
    rw [hE]
    have hr : round ((100 : ℝ) * (135219003615836366479344120 / 126825030131969720661201))
        = 106619 := by
      rw [round_eq, Int.floor_eq_iff]
      refine ⟨by norm_num, by norm_num⟩
    rw [hr]
    norm_num

/-- Witness for C2 at principal 500, rate 7, quarterly compounding (4),
monthly payments (12), 24 payments. -/
theorem calculatePayment_spec_witness :
    calculatePayment 500 0 4 12 24 = 500 / ((24 : ℕ) : ℝ) ∧
    calculatePayment 500 7 4 12 24 = round2 (specAnnuityPayment 500 7 4 12 24) ∧
    calculatePayment 12000 12 12 12 12 = 1066.19 :=
  calculatePayment_spec 500 7 4 12 24 (by norm_num) (by norm_num)

/-- C1: on an active loan, an accepted payment (at least 0.01 and at most
110% of the balance due) is allocated interest-first:
interestPaid = min(accrued, payment), principalPaid = payment - interestPaid;
then amountPaid grows by the payment, remainingBalance becomes
max(0, remainingBalance - principalPaid) (never negative), lastPaymentDate
becomes the payment date, nextDueDate the payment date advanced one
payment-cadence period, and when the new balance is ≤ 0.01 the balance is
forced to 0 and the loan closes.  Stored currency fields and the payment are
2-decimal quantities, per the spec's storage rounding convention. -/
theorem applyPayment_allocation (loan : Loan) (pay : ℝ) (d : Date)
    (hact : loan.status = .active)
    (hval : 0.01 ≤ pay)
    (hrb : IsTwoDec loan.remainingBalance)
    (hap : IsTwoDec loan.amountPaid)
    (hpaydec : IsTwoDec pay)
    (hacc : pay ≤ 1.1 * (loan.remainingBalance + accruedFor loan d)) :
    ∃ l, applyPayment loan pay d = .ok l ∧
      l.amountPaid = loan.amountPaid + pay ∧
      l.lastPaymentDate = some d ∧
      l.nextDueDate = some (nextDueFrom loan.paymentFrequency d) ∧
      (max 0 (loan.remainingBalance - (pay - min (accruedFor loan d) pay)) ≤ 0.01 →
        l.remainingBalance = 0 ∧ l.status = .closed) ∧
      (¬ max 0 (loan.remainingBalance - (pay - min (accruedFor loan d) pay)) ≤ 0.01 →
        l.remainingBalance
            = max 0 (loan.remainingBalance - (pay - min (accruedFor loan d) pay)) ∧
          l.status = .active) := by
  have hA2 : IsTwoDec (accruedFor loan d) := accrued_twoDec _ _ _ _ _
  have hpp : round2 (pay - min (accruedFor loan d) pay)
      = pay - min (accruedFor loan d) pay :=
    round2_eq_self (hpaydec.sub (hA2.min hpaydec))
  have hrb1 : round2 (loan.remainingBalance - round2 (pay - min (accruedFor loan d) pay))
      = loan.remainingBalance - (pay - min (accruedFor loan d) pay) := by
    rw [hpp]
    exact round2_eq_self (hrb.sub (hpaydec.sub (hA2.min hpaydec)))
  have hcb : round2 (loan.remainingBalance + accruedFor loan d)
      = loan.remainingBalance + accruedFor loan d :=
    round2_eq_self (hrb.add hA2)
  have hok : ¬ round2 (loan.remainingBalance + accruedFor loan d) * 1.1 < pay := by
    rw [hcb]
    exact not_lt.mpr (by rw [mul_comm]; exact hacc)
  have hap2 : round2 (loan.amountPaid + pay) = loan.amountPaid + pay :=
    round2_eq_self (hap.add hpaydec)
  by_cases hc : max 0 (loan.remainingBalance - (pay - min (accruedFor loan d) pay)) ≤ 0.01
  · have hc2 : max 0 (round2 (loan.remainingBalance
        - round2 (pay - min (accruedFor loan d) pay))) ≤ 0.01 := by
      rw [hrb1]
      exact hc
    refine ⟨_, applyPayment_accept_close loan pay d (not_lt.mpr hval) hact hok hc2,
      hap2, rfl, rfl, fun _ => ⟨rfl, rfl⟩, fun h => absurd hc h⟩
  · have hc2 : ¬ max 0 (round2 (loan.remainingBalance
        - round2 (pay - min (accruedFor loan d) pay))) ≤ 0.01 := by
      rw [hrb1]
      exact hc
    refine ⟨_, applyPayment_accept_open loan pay d (not_lt.mpr hval) hact hok hc2,
      hap2, rfl, rfl, fun h => absurd h hc, fun _ => ⟨?_, hact⟩⟩
    show max 0 (round2 (loan.remainingBalance - round2 (pay - min (accruedFor loan d) pay)))
        = max 0 (loan.remainingBalance - (pay - min (accruedFor loan d) pay))
    rw [hrb1]

/-- A sample active zero-interest loan used to instantiate the payment
theorems. -/
def wLoan1 : Loan := {
  amount := 100
  startDate := ⟨2024, 1, 15⟩
  endDate := ⟨2025, 1, 15⟩
  interestRate := 0
  paymentAmount := 10
  paymentFrequency := .monthly
  compoundingFrequency := .monthly
  nextDueDate := some ⟨2024, 2, 15⟩
  lastPaymentDate := some ⟨2024, 1, 15⟩
  amountPaid := 0
  remainingBalance := 100
  numberOfPayments := 12
  status := .active }

/-- Witness for C1: a 40.00 payment on wLoan1 on 2024-02-15. -/
theorem applyPayment_allocation_witness :
    ∃ l, applyPayment wLoan1 40 ⟨2024, 2, 15⟩ = .ok l ∧
      l.amountPaid = wLoan1.amountPaid + 40 ∧
      l.lastPaymentDate = some ⟨2024, 2, 15⟩ ∧
      l.nextDueDate = some (nextDueFrom wLoan1.paymentFrequency ⟨2024, 2, 15⟩) ∧
      (max 0 (wLoan1.remainingBalance
          - (40 - min (accruedFor wLoan1 ⟨2024, 2, 15⟩) 40)) ≤ 0.01 →
        l.remainingBalance = 0 ∧ l.status = .closed) ∧
      (¬ max 0 (wLoan1.remainingBalance
          - (40 - min (accruedFor wLoan1 ⟨2024, 2, 15⟩) 40)) ≤ 0.01 →
        l.remainingBalance = max 0 (wLoan1.remainingBalance
            - (40 - min (accruedFor wLoan1 ⟨2024, 2, 15⟩) 40)) ∧
          l.status = .active) :=
  applyPayment_allocation wLoan1 40 ⟨2024, 2, 15⟩ rfl (by norm_num)
    ⟨10000, by norm_num [wLoan1]⟩ ⟨0, by norm_num [wLoan1]⟩ ⟨4000, by norm_num⟩
    (by rw [accruedFor_rate_zero wLoan1 ⟨2024, 2, 15⟩ rfl]; norm_num [wLoan1])

/-- C3: on an active loan, a requested payment exceeding 1.1 times the
balance due (remainingBalance plus accrued interest) is rejected with
PaymentTooLarge carrying suggested payment remainingBalance + accrued, and
the stored loan record is left unchanged (the handler returns before any
mutation, modelled by stateAfter). -/
theorem applyPayment_too_large (loan : Loan) (pay : ℝ) (d : Date)
    (hact : loan.status = .active)
    (hval : 0.01 ≤ pay)
    (hrb : IsTwoDec loan.remainingBalance)
    (hbig : 1.1 * (loan.remainingBalance + accruedFor loan d) < pay) :
    applyPayment loan pay d
        = .error (.paymentTooLarge (loan.remainingBalance + accruedFor loan d)) ∧
      stateAfter (applyPayment loan pay d) loan = loan := by
  have hA2 : IsTwoDec (accruedFor loan d) := accrued_twoDec _ _ _ _ _
  have hcb : round2 (loan.remainingBalance + accruedFor loan d)
      = loan.remainingBalance + accruedFor loan d :=
    round2_eq_self (hrb.add hA2)
  have hbig2 : round2 (loan.remainingBalance + accruedFor loan d) * 1.1 < pay := by
    rw [hcb, mul_comm]
    exact hbig
  have herr := applyPayment_reject_large loan pay d (not_lt.mpr hval) hact hbig2
  constructor
  · rw [herr, hcb, hcb]
  · rw [herr]
    rfl

/-- Witness for C3: a 120.00 payment against a balance due of 100.00. -/
theorem applyPayment_too_large_witness :
    applyPayment wLoan1 120 ⟨2024, 2, 15⟩
        = .error (.paymentTooLarge (wLoan1.remainingBalance
            + accruedFor wLoan1 ⟨2024, 2, 15⟩)) ∧
      stateAfter (applyPayment wLoan1 120 ⟨2024, 2, 15⟩) wLoan1 = wLoan1 :=
  applyPayment_too_large wLoan1 120 ⟨2024, 2, 15⟩ rfl (by norm_num)
    ⟨10000, by norm_num [wLoan1]⟩
    (by rw [accruedFor_rate_zero wLoan1 ⟨2024, 2, 15⟩ rfl]; norm_num [wLoan1])

/-- C4 (amended): payoff is the only operation that clears nextDueDate —
after payoff the due date is none and the status closed; createLoan,
applyPayment and reviseLoan always store a present (non-null) nextDueDate,
even when the resulting status is closed, so "nextDueDate is null iff status
is closed" holds after payoff but not after the other operations. -/
theorem nextDueDate_policy (loan : Loan) (t : LoanTerms) (pay : ℝ) (d now : Date) :
    (∀ l, payoff loan now = .ok l → l.nextDueDate = none ∧ l.status = .closed) ∧
    (∀ l, applyPayment loan pay d = .ok l → l.nextDueDate ≠ none) ∧
    (∀ l, reviseLoan loan t now = .ok l → l.nextDueDate ≠ none) ∧
    (∀ l, createLoan t = .ok l → l.nextDueDate ≠ none) := by
  refine ⟨?_, ?_, ?_, ?_⟩
  · intro l h
    unfold payoff at h
    split at h
    · exact absurd h (by simp)
    · rw [Except.ok.injEq] at h
      subst h
      exact ⟨rfl, rfl⟩
  · intro l h
    unfold applyPayment at h
    split at h
    · exact absurd h (by simp)
    split at h
    · exact absurd h (by simp)
    dsimp only at h
    split at h
    · exact absurd h (by simp)
    split at h
    · rw [Except.ok.injEq] at h
      subst h
      simp
    · rw [Except.ok.injEq] at h
      subst h
      simp
  · intro l h
    unfold reviseLoan at h
    split at h
    · exact absurd h (by simp)
    split at h
    · exact absurd h (by simp)
    split at h
    · exact absurd h (by simp)
    rw [Except.ok.injEq] at h
    subst h
    simp
  · intro l h
    unfold createLoan at h
    split at h
    · exact absurd h (by simp)
    split at h
    · exact absurd h (by simp)
    split at h
    · exact absurd h (by simp)
    rw [Except.ok.injEq] at h
    subst h
    simp

/-- Counterexample to C4 as stated: a payment that pays wLoan1 off through
applyPayment closes the loan yet stores a non-null nextDueDate, so
"nextDueDate is null iff status is closed" fails after applyPayment. -/
theorem nextDueDate_policy_cex :
    ∃ l, applyPayment wLoan1 100 ⟨2024, 2, 15⟩ = .ok l ∧
      l.status = .closed ∧ l.nextDueDate ≠ none := by
  have hA : accruedFor wLoan1 ⟨2024, 2, 15⟩ = 0 := accruedFor_rate_zero _ _ rfl
  refine ⟨_, applyPayment_accept_close wLoan1 100 ⟨2024, 2, 15⟩ (by norm_num) rfl ?_ ?_,
    rfl, by simp⟩
  · rw [hA]
    norm_num [wLoan1, round2]
  · rw [hA]
    norm_num [wLoan1, round2]

/-- C5 (amended): amountPaid is monotonically non-decreasing under
applyPayment and payoff; reviseLoan does not preserve it (it recomputes
amountPaid as newPrincipal minus the new remaining balance, which can drop
to 0, see the counterexample). -/
theorem amountPaid_monotone (loan : Loan) (pay : ℝ) (d now : Date)
    (hap : IsTwoDec loan.amountPaid)
    (hrb : 0 ≤ loan.remainingBalance)
    (hir : 0 ≤ loan.interestRate) :
    (∀ l, applyPayment loan pay d = .ok l → loan.amountPaid ≤ l.amountPaid) ∧
    (∀ l, payoff loan now = .ok l → loan.amountPaid ≤ l.amountPaid) := by
  constructor
  · intro l h
    by_cases hv : pay < 0.01
    · rw [show applyPayment loan pay d = .error .invalidPayment from by
        unfold applyPayment; rw [if_pos hv]] at h
      exact absurd h (by simp)
    by_cases hs : loan.status = .closed
    · rw [show applyPayment loan pay d = .error .loanClosed from by
        unfold applyPayment; rw [if_neg hv, if_pos hs]] at h
      exact absurd h (by simp)
    have hact : loan.status = .active := by
      cases hstat : loan.status
      · rfl
      · exact absurd hstat hs
    have hpay0 : 0 ≤ pay := by linarith [not_lt.mp hv]
    by_cases hbig : round2 (loan.remainingBalance + accruedFor loan d) * 1.1 < pay
    · rw [applyPayment_reject_large loan pay d hv hact hbig] at h
      exact absurd h (by simp)
    by_cases hcl : max 0 (round2 (loan.remainingBalance
        - round2 (pay - min (accruedFor loan d) pay))) ≤ 0.01
    · rw [applyPayment_accept_close loan pay d hv hact hbig hcl] at h
      rw [Except.ok.injEq] at h
      subst h
      exact le_round2_add hap hpay0
    · rw [applyPayment_accept_open loan pay d hv hact hbig hcl] at h
      rw [Except.ok.injEq] at h
      subst h
      exact le_round2_add hap hpay0
  · intro l h
    by_cases hs : loan.status = .closed
    · rw [show payoff loan now = .error .loanClosed from by
        unfold payoff; rw [if_pos hs]] at h
      exact absurd h (by simp)
    have hact : loan.status = .active := by
      cases hstat : loan.status
      · rfl
      · exact absurd hstat hs
    rw [payoff_active loan now hact] at h
    rw [Except.ok.injEq] at h
    subst h
    apply le_round2_add hap
    apply round2_nonneg
    have hA : 0 ≤ accruedFor loan now := accrued_nonneg hrb hir _ _ _
    linarith

/-- Witness for C5 at wLoan1 with a 40.00 payment and a payoff date. -/
theorem amountPaid_monotone_witness :
    (∀ l, applyPayment wLoan1 40 ⟨2024, 2, 15⟩ = .ok l →
      wLoan1.amountPaid ≤ l.amountPaid) ∧
    (∀ l, payoff wLoan1 ⟨2024, 3, 1⟩ = .ok l →
      wLoan1.amountPaid ≤ l.amountPaid) :=
  amountPaid_monotone wLoan1 40 ⟨2024, 2, 15⟩ ⟨2024, 3, 1⟩
    ⟨0, by norm_num [wLoan1]⟩ (by norm_num [wLoan1]) (by norm_num [wLoan1])

/-- A half-paid loan and an identical-principal revision of it. -/
def cexLoanC5 : Loan := {
  amount := 10000
  startDate := ⟨2024, 1, 1⟩
  endDate := ⟨2025, 1, 1⟩
  interestRate := 0
  paymentAmount := 900
  paymentFrequency := .monthly
  compoundingFrequency := .monthly
  nextDueDate := some ⟨2024, 7, 1⟩
  lastPaymentDate := some ⟨2024, 6, 1⟩
  amountPaid := 5000
  remainingBalance := 5000
  numberOfPayments := 12
  status := .active }

/-- Terms equal to cexLoanC5's, re-submitted unchanged. -/
def cexTermsC5 : LoanTerms := {
  amount := 10000
  startDate := ⟨2024, 1, 1⟩
  endDate := ⟨2025, 1, 1⟩
  interestRate := 0
  paymentFrequency := .monthly
  compoundingFrequency := .monthly
  status := .active }

/-- Counterexample to C5 as stated: reviseLoan on a half-paid loan with the
same principal resets amountPaid from 5000 to 0, strictly decreasing it. -/
theorem amountPaid_monotone_cex :
    ∃ l, reviseLoan cexLoanC5 cexTermsC5 ⟨2024, 6, 15⟩ = .ok l ∧
      l.amountPaid < cexLoanC5.amountPaid := by
  have hcond : ¬ (cexLoanC5.amount ≠ cexTermsC5.amount ∧ 0 < cexLoanC5.amount) := by
    simp [cexLoanC5, cexTermsC5]
  refine ⟨_, reviseLoan_ok cexLoanC5 cexTermsC5 ⟨2024, 6, 15⟩
    (by norm_num [cexTermsC5]) (by norm_num [cexTermsC5]) (by decide), ?_⟩
  rw [if_neg hcond]
  dsimp only
  rw [round2_eq_self (⟨1000000, by norm_num [cexTermsC5]⟩ : IsTwoDec cexTermsC5.amount),
    sub_self, round2_zero]
  norm_num [cexLoanC5]

/-- C6: when the revised principal differs from the old one and the old
principal is positive, reviseLoan carries repayment progress over
proportionally: the new remaining balance is
newPrincipal * (1 - percentagePaid) with
percentagePaid = (oldPrincipal - (oldRemainingBalance - accrued)) / oldPrincipal,
and amountPaid becomes newPrincipal - newRemainingBalance.  The
representability hypothesis on the carried-over product makes the spec's
storage rounding the identity, so the equality is exact. -/
theorem reviseLoan_proportional (loan : Loan) (t : LoanTerms) (now : Date)
    (hne : loan.amount ≠ t.amount) (hpos : 0 < loan.amount)
    (h0 : 0 ≤ t.amount) (hr0 : 0 ≤ t.interestRate) (hr1 : t.interestRate ≤ 100)
    (hd : toDays t.startDate < toDays t.endDate)
    (hta : IsTwoDec t.amount)
    (hprod : IsTwoDec (t.amount * (1 - (loan.amount
      - (loan.remainingBalance - accruedFor loan now)) / loan.amount))) :
    ∃ l, reviseLoan loan t now = .ok l ∧
      l.remainingBalance = t.amount * (1 - (loan.amount
        - (loan.remainingBalance - accruedFor loan now)) / loan.amount) ∧
      l.amountPaid = t.amount - l.remainingBalance := by
  refine ⟨_, reviseLoan_ok loan t now (not_lt.mpr h0)
    (by rw [not_or]; exact ⟨not_lt.mpr hr0, not_lt.mpr hr1⟩) (not_le.mpr hd), ?_, ?_⟩
  · rw [if_pos ⟨hne, hpos⟩]
    exact round2_eq_self hprod
  · rw [if_pos ⟨hne, hpos⟩]
    dsimp only
    rw [round2_eq_self hprod]
    exact round2_eq_self (hta.sub hprod)

/-- The spec's worked example: principal 10000 with 8000 remaining and no
accrual, revised down to principal 5000. -/
def exLoanC6 : Loan := {
  amount := 10000
  startDate := ⟨2023, 1, 1⟩
  endDate := ⟨2024, 1, 1⟩
  interestRate := 0
  paymentAmount := 850
  paymentFrequency := .monthly
  compoundingFrequency := .monthly
  nextDueDate := some ⟨2023, 7, 1⟩
  lastPaymentDate := some ⟨2023, 6, 1⟩
  amountPaid := 2000
  remainingBalance := 8000
  numberOfPayments := 12
  status := .active }

/-- The revision of exLoanC6 to principal 5000. -/
def exTermsC6 : LoanTerms := {
  amount := 5000
  startDate := ⟨2023, 1, 1⟩
  endDate := ⟨2024, 1, 1⟩
  interestRate := 0
  paymentFrequency := .monthly
  compoundingFrequency := .monthly
  status := .active }

/-- Witness for C6: the spec's example, old principal 10000 with remaining
8000 edited to principal 5000, yields new remaining balance 4000 (and
amountPaid 1000). -/
theorem reviseLoan_proportional_witness :
    ∃ l, reviseLoan exLoanC6 exTermsC6 ⟨2023, 6, 10⟩ = .ok l ∧
      l.remainingBalance = 4000 ∧ l.amountPaid = 1000 := by
  have hA : accruedFor exLoanC6 ⟨2023, 6, 10⟩ = 0 := accruedFor_rate_zero _ _ rfl
  obtain ⟨l, h1, h2, h3⟩ := reviseLoan_proportional exLoanC6 exTermsC6 ⟨2023, 6, 10⟩
    (by norm_num [exLoanC6, exTermsC6]) (by norm_num [exLoanC6])
    (by norm_num [exTermsC6]) (by norm_num [exTermsC6]) (by norm_num [exTermsC6])
    (by decide) ⟨500000, by norm_num [exTermsC6]⟩
    (by rw [hA]; exact ⟨400000, by norm_num [exLoanC6, exTermsC6]⟩)
  refine ⟨l, h1, ?_, ?_⟩
  · rw [h2, hA]
    norm_num [exLoanC6, exTermsC6]
  · rw [h3, h2, hA]
    norm_num [exLoanC6, exTermsC6]

/-- C10: when the revised principal equals the old one (or the old principal
is 0), reviseLoan resets remainingBalance to the full new principal and
amountPaid to 0, discarding previously recorded repayment progress. -/
theorem reviseLoan_reset (loan : Loan) (t : LoanTerms) (now : Date)
    (heq : loan.amount = t.amount ∨ loan.amount = 0)
    (h0 : 0 ≤ t.amount) (hr0 : 0 ≤ t.interestRate) (hr1 : t.interestRate ≤ 100)
    (hd : toDays t.startDate < toDays t.endDate)
    (hta : IsTwoDec t.amount) :
    ∃ l, reviseLoan loan t now = .ok l ∧
      l.remainingBalance = t.amount ∧ l.amountPaid = 0 := by
  have hcond : ¬ (loan.amount ≠ t.amount ∧ 0 < loan.amount) := by
    rcases heq with h | h
    · exact fun hc => hc.1 h
    · exact fun hc => absurd hc.2 (by rw [h]; exact lt_irrefl 0)
  refine ⟨_, reviseLoan_ok loan t now (not_lt.mpr h0)
    (by rw [not_or]; exact ⟨not_lt.mpr hr0, not_lt.mpr hr1⟩) (not_le.mpr hd), ?_, ?_⟩
  · rw [if_neg hcond]
    exact round2_eq_self hta
  · rw [if_neg hcond, round2_eq_self hta, sub_self, round2_zero]

/-- Witness for C10: revising cexLoanC5 (half paid) with its own unchanged
terms resets the balance to the full principal and amountPaid to 0. -/
theorem reviseLoan_reset_witness :
    (cexLoanC5.amount = cexTermsC5.amount ∨ cexLoanC5.amount = 0) ∧
    ∃ l, reviseLoan cexLoanC5 cexTermsC5 ⟨2024, 6, 15⟩ = .ok l ∧
      l.remainingBalance = cexTermsC5.amount ∧ l.amountPaid = 0 :=
  ⟨Or.inl (by norm_num [cexLoanC5, cexTermsC5]),
    reviseLoan_reset cexLoanC5 cexTermsC5 ⟨2024, 6, 15⟩
      (Or.inl (by norm_num [cexLoanC5, cexTermsC5]))
      (by norm_num [cexTermsC5]) (by norm_num [cexTermsC5])
      (by norm_num [cexTermsC5]) (by decide)
      ⟨1000000, by norm_num [cexTermsC5]⟩⟩

/-- C7 (amended): for valid terms (amount ≥ 0, rate in 0..100,
endDate > startDate) createLoan returns a loan with
remainingBalance = principal, amountPaid = 0, lastPaymentDate = startDate,
nextDueDate = startDate advanced one payment-cadence period, and status
equal to the status supplied in the request (the validator admits both
active and closed); it fails with InvalidTerms when the date range is
invalid or the amount is negative (an amount of exactly 0 is accepted,
since the validator's bound is min 0). -/
theorem createLoan_spec (t : LoanTerms) :
    (0 ≤ t.amount → 0 ≤ t.interestRate → t.interestRate ≤ 100 →
      toDays t.startDate < toDays t.endDate → IsTwoDec t.amount →
      ∃ l, createLoan t = .ok l ∧
        l.remainingBalance = t.amount ∧ l.amountPaid = 0 ∧
        l.lastPaymentDate = some t.startDate ∧
        l.nextDueDate = some (nextDueFrom t.paymentFrequency t.startDate) ∧
        l.status = t.status) ∧
    (toDays t.endDate ≤ toDays t.startDate → createLoan t = .error .invalidTerms) ∧
    (t.amount < 0 → createLoan t = .error .invalidTerms) := by
  refine ⟨?_, ?_, ?_⟩
  · intro h0 hr0 hr1 hd hta
    exact ⟨_, createLoan_ok t (not_lt.mpr h0)
      (by rw [not_or]; exact ⟨not_lt.mpr hr0, not_lt.mpr hr1⟩) (not_le.mpr hd),
      round2_eq_self hta, rfl, rfl, rfl, rfl⟩
  · intro hdate
    unfold createLoan
    by_cases h1 : t.amount < 0
    · rw [if_pos h1]
    · rw [if_neg h1]
      by_cases h2 : t.interestRate < 0 ∨ 100 < t.interestRate
      · rw [if_pos h2]
      · rw [if_neg h2, if_pos hdate]
  · intro h1
    unfold createLoan
    rw [if_pos h1]

/-- Valid terms except that the requested status is closed. -/
def cexTermsC7 : LoanTerms := {
  amount := 1000
  startDate := ⟨2024, 1, 1⟩
  endDate := ⟨2025, 1, 1⟩
  interestRate := 5
  paymentFrequency := .monthly
  compoundingFrequency := .monthly
  status := .closed }

/-- Valid dates and rate but a principal of exactly 0. -/
def cexTermsC7b : LoanTerms := {
  amount := 0
  startDate := ⟨2024, 1, 1⟩
  endDate := ⟨2025, 1, 1⟩
  interestRate := 5
  paymentFrequency := .monthly
  compoundingFrequency := .monthly
  status := .active }

/-- Counterexample to C7 as stated: with valid dates, positive amount and a
rate in range, createLoan can return a loan whose status is closed (the
status comes from the request), and a zero amount is accepted rather than
rejected as InvalidTerms. -/
theorem createLoan_spec_cex :
    (∃ l, createLoan cexTermsC7 = .ok l ∧ l.status = .closed) ∧
    (∃ l, createLoan cexTermsC7b = .ok l) := by
  constructor
  · exact ⟨_, createLoan_ok cexTermsC7 (by norm_num [cexTermsC7])
      (by norm_num [cexTermsC7]) (by decide), rfl⟩
  · exact ⟨_, createLoan_ok cexTermsC7b (by norm_num [cexTermsC7b])
      (by norm_num [cexTermsC7b]) (by decide)⟩

end Bachat
